import Mathlib

/-
Verification of the statement-builder component of the vodka repository
(src/repositories/postgres.go, package builders). The Go code is embedded
shallowly: the builder struct becomes a Lean structure, the fluent methods
become pure update functions, and the renderers become string-valued
functions. Go maps are modelled as entry lists in iteration order; Go
interface values are modelled by the closed Value type covering the cases
the source discriminates on. Go float64 values are carried as their exact
rational value, and the strconv decimal printers are modelled on those
rationals.
-/

namespace builders

/-- Digits of a natural number in base 10, most significant first.
Fuel-based helper for the decimal printers (strconv) used by the builder. -/
def natDecimalAux : Nat → Nat → List Char
  | 0, _ => []
  | fuel+1, n =>
    if n < 10 then [Nat.digitChar n]
    else natDecimalAux fuel (n / 10) ++ [Nat.digitChar (n % 10)]

/-- Base-10 string of a natural number (decimal output of the Go strconv package). -/
def natDecimal (n : Nat) : String :=
  String.mk (natDecimalAux (n + 1) n)

/-- Base-10 string of an integer: models strconv.FormatInt in base 10 and strconv.Itoa. -/
def intDecimal (n : Int) : String :=
  (if n < 0 then "-" else "") ++ natDecimal n.natAbs

/-- Floor of a rational number as an integer. -/
def ratFloor (q : ℚ) : Int :=
  Int.fdiv q.num (q.den : Int)

/-- Absolute value of a rational (a rational is negative exactly when its
reduced numerator is). -/
def ratAbs (q : ℚ) : ℚ :=
  if q.num < 0 then mkRat (-q.num) q.den else q

/-- Round to the nearest integer with ties to even: the rounding strconv applies
when it formats a binary floating-point value in decimal. The fractional part
q minus floor q equals rnum over q.den, so the comparisons against one half are
done on integers. -/
def roundHalfEven (q : ℚ) : Int :=
  let f := ratFloor q
  let rnum := q.num - f * (q.den : Int)
  if rnum * 2 < (q.den : Int) then f
  else if (q.den : Int) < rnum * 2 then f + 1
  else if f % 2 = 0 then f else f + 1

/-- Left-pad a string with zeros to the given length. -/
def padZeros (k : Nat) (s : String) : String :=
  String.mk (List.replicate (k - s.length) '0') ++ s

/-- Models strconv.FormatFloat with verb f and precision 8 on the exact rational
value of the 64-bit float: fixed-point decimal with exactly eight fractional
digits, a minus sign in front of negative inputs. -/
def formatFloat8 (q : ℚ) : String :=
  let n := (roundHalfEven (mkRat ((ratAbs q).num * 100000000) (ratAbs q).den)).toNat
  ((if q.num < 0 then "-" else "") ++ natDecimal (n / 100000000)) ++ "." ++ padZeros 8 (natDecimal (n % 100000000))

/-- Decimal digits of the fraction num over den (den positive, num in the
half-open unit interval scaled by den), fuel-bounded; helper for the generic
float printer. -/
def fracDecimals : Nat → Int → Int → String
  | 0, _, _ => ""
  | fuel+1, num, den =>
    if num = 0 then ""
    else
      let d := Int.fdiv (num * 10) den
      natDecimal d.toNat ++ fracDecimals fuel (num * 10 - d * den) den

/-- Models the generic %v rendering (fmt, shortest decimal) of a 64-bit float on
its exact rational value: plain decimal without trailing zeros and without a
decimal point for integral values. -/
def goFloatRepr (q : ℚ) : String :=
  let a := ratAbs q
  let i := ratFloor a
  let rnum := a.num - i * (a.den : Int)
  (if q.num < 0 then "-" else "") ++ natDecimal i.toNat
    ++ (if rnum = 0 then "" else "." ++ fracDecimals 1100 rnum (a.den : Int))

/-- A dynamically typed Go value (interface value) as the builder receives it:
the cases the source discriminates on, plus bool and int slices as
representatives of the default branches of the type switches. -/
inductive Value where
  | str : String → Value
  | int64 : Int → Value
  | int : Int → Value
  | float : ℚ → Value
  | bool : Bool → Value
  | listInt64 : List Int → Value
  | listInt : List Int → Value
  | listFloat : List ℚ → Value
  | listStr : List String → Value
deriving DecidableEq

/-- True exactly for the non-slice cases: the values the source formats as one
scalar literal. -/
def Value.isScalar : Value → Bool
  | .str _ => true
  | .int64 _ => true
  | .int _ => true
  | .float _ => true
  | .bool _ => true
  | _ => false

/-- Models fmt.Sprintf with verb %v and fmt.Sprint on the modelled values: Go
prints slices bracketed with space-separated elements. -/
def goRepr : Value → String
  | .str s => s
  | .int64 n => intDecimal n
  | .int n => intDecimal n
  | .float q => goFloatRepr q
  | .bool b => if b then "true" else "false"
  | .listInt64 xs => "[" ++ String.intercalate " " (xs.map intDecimal) ++ "]"
  | .listInt xs => "[" ++ String.intercalate " " (xs.map intDecimal) ++ "]"
  | .listFloat xs => "[" ++ String.intercalate " " (xs.map goFloatRepr) ++ "]"
  | .listStr xs => "[" ++ String.intercalate " " xs ++ "]"

/-- toString of the source: float64 values with fixed 8-decimal precision, int64
and int as plain decimal digits, everything else single-quoted around its
generic textual representation. -/
def toString (value : Value) : String :=
  match value with
  | .float v => formatFloat8 v
  | .int64 v => intDecimal v
  | .int v => intDecimal v
  | v => "\x27" ++ goRepr v ++ "\x27"

/-- formatValue of the source: renders an operator and value together; string
scalars get an equals sign and quotes; int64, float64 and string slices get IN
lists; anything else an equals sign and generic text. No build function calls
it. -/
def formatValue (value : Value) : String :=
  match value with
  | .str v => "= \x27" ++ v ++ "\x27"
  | .listInt64 v => " IN (" ++ String.intercalate "," (v.map intDecimal) ++ ")"
  | .listFloat v => " IN (" ++ String.intercalate "," (v.map goFloatRepr) ++ ")"
  | .listStr v => " IN (" ++ String.intercalate "," (v.map (fun n => "\x27" ++ n ++ "\x27")) ++ ")"
  | v => "=" ++ goRepr v

/-- Join specification of the source (the field Type is renamed jtype because
Type is reserved in Lean). -/
structure Join where
  Source : String
  Key : String
  TargetKey : String
  jtype : String
  Fields : List String
deriving DecidableEq

/-- Order specification of the source. -/
structure OrderParam where
  OrderBy : String
  Asc : Bool
  Desc : Bool
deriving DecidableEq

/-- The accumulated statement parts of the source (the field where is renamed
whereMap because where is reserved in Lean). The Go predicate map is modelled
as an entry list in iteration order; the insert payload interface value is some
entry list when it holds a map and none otherwise. -/
structure parts where
  table : String
  fields : List String
  whereMap : List (String × Value)
  join : List Join
  order : List OrderParam
  limit : Int
  offset : Int
  insertData : Option (List (String × Value))
  returnID : String
deriving DecidableEq

/-- The postgres statement builder of the source: query type, parts, and the
sources map from table name to alias, modelled as an entry list where the most
recent binding of a table comes first. -/
structure postgres where
  queryType : String
  parts : parts
  sources : List (String × String)
deriving DecidableEq

/-- Modelled from the spec: the SELECT query-type keyword constant is declared
outside the given source file; the spec's example output pins it to the plain
keyword. -/
def queryTypeSelect : String := "SELECT"

/-- Modelled from the spec: the INSERT query-type keyword constant is declared
outside the given source file; the spec's INSERT INTO example pins it. -/
def queryTypeInsert : String := "INSERT"

/-- Modelled from the spec: the UPDATE query-type keyword constant is declared
outside the given source file; the spec's UPDATE example pins it. -/
def queryTypeUpdate : String := "UPDATE"

/-- Modelled from the spec: the DELETE query-type keyword constant is declared
outside the given source file; the spec's DELETE FROM shape pins it. -/
def queryTypeDelete : String := "DELETE"

/-- Modelled from the spec: the constant default alias for the primary table is
declared outside the given source file; the spec names u as the default alias. -/
def tablePrefix : String := "u"

/-- Modelled from the spec: the adapter hands out a fresh builder per statement
(outside the given source file), i.e. the zero value of the postgres struct. -/
def freshBuilder : postgres :=
  { queryType := "", parts := { table := "", fields := [], whereMap := [], join := [], order := [], limit := 0, offset := 0, insertData := none, returnID := "" }, sources := [] }

/-- addToSources of the source: assignment into the sources map (a nil map is
allocated on first use); under lookup the newest binding shadows older ones. -/
def postgres.addToSources (sql : postgres) (table id : String) : postgres :=
  { sql with sources := (table, id) :: sql.sources }

/-- getAliasBySource of the source: the registered alias when one is present and
not empty, the table name itself otherwise. -/
def postgres.getAliasBySource (sql : postgres) (source : String) : String :=
  if (sql.sources.lookup source).getD "" ≠ "" then (sql.sources.lookup source).getD ""
  else source

/-- Select of the source: sets the query type and appends the given fields. -/
def postgres.Select (sql : postgres) (fields : List String) : postgres :=
  { sql with queryType := queryTypeSelect, parts := { sql.parts with fields := sql.parts.fields ++ fields } }

/-- Insert of the source: sets the query type and the table. -/
def postgres.Insert (sql : postgres) (table : String) : postgres :=
  { sql with queryType := queryTypeInsert, parts := { sql.parts with table := table } }

/-- Update of the source: sets the query type and the table and registers the
table under the default alias. -/
def postgres.Update (sql : postgres) (table : String) : postgres :=
  ({ sql with queryType := queryTypeUpdate, parts := { sql.parts with table := table } }).addToSources table tablePrefix

/-- Delete of the source: sets the query type only. -/
def postgres.Delete (sql : postgres) : postgres :=
  { sql with queryType := queryTypeDelete }

/-- Values of the source: stores the insert payload. -/
def postgres.Values (sql : postgres) (data : Option (List (String × Value))) : postgres :=
  { sql with parts := { sql.parts with insertData := data } }

/-- Set of the source: an alias for Values. -/
def postgres.Set (sql : postgres) (data : Option (List (String × Value))) : postgres :=
  sql.Values data

/-- From of the source: sets the table and registers it under the default alias. -/
def postgres.From (sql : postgres) (table : String) : postgres :=
  ({ sql with parts := { sql.parts with table := table } }).addToSources table tablePrefix

/-- ReturnID of the source: stores the returning column. -/
def postgres.ReturnID (sql : postgres) (id : String) : postgres :=
  { sql with parts := { sql.parts with returnID := id } }

/-- Where of the source: replaces the predicate map. -/
def postgres.Where (sql : postgres) (w : List (String × Value)) : postgres :=
  { sql with parts := { sql.parts with whereMap := w } }

/-- Join of the source: appends a join and registers the joined table under its
own name. -/
def postgres.Join (sql : postgres) (jp : Join) : postgres :=
  ({ sql with parts := { sql.parts with join := sql.parts.join ++ [jp] } }).addToSources jp.Source jp.Source

/-- Order of the source: appends an order term. -/
def postgres.Order (sql : postgres) (o : OrderParam) : postgres :=
  { sql with parts := { sql.parts with order := sql.parts.order ++ [o] } }

/-- Limit of the source: sets limit and offset. -/
def postgres.Limit (sql : postgres) (limit offset : Int) : postgres :=
  { sql with parts := { sql.parts with limit := limit, offset := offset } }

/-- buildTable of the source. -/
def postgres.buildTable (sql : postgres) (aliasFlag : Bool) : String :=
  if aliasFlag = false then " " ++ sql.parts.table
  else " " ++ sql.parts.table ++ " as " ++ sql.getAliasBySource sql.parts.table

/-- buildFrom of the source. -/
def postgres.buildFrom (sql : postgres) (aliasFlag : Bool) : String :=
  " FROM " ++ sql.buildTable aliasFlag

/-- buildFields of the source: a pointer-receiver method that writes the
wildcard default into the fields slice of the builder it runs on before it
renders; the returned second component is that possibly updated builder. -/
def postgres.buildFields (sql : postgres) : String × postgres :=
  let sql2 := if sql.parts.fields = [] then { sql with parts := { sql.parts with fields := ["*"] } } else sql
  let fs := sql2.parts.fields.map (fun f => sql2.getAliasBySource sql2.parts.table ++ "." ++ f)
    ++ (sql2.parts.join.map (fun j => j.Fields.map (fun f => j.Source ++ "." ++ f))).flatten
  (" " ++ String.intercalate ", " fs, sql2)

/-- buildJoin of the source. -/
def postgres.buildJoin (sql : postgres) : String :=
  if sql.parts.join = [] then ""
  else String.join (sql.parts.join.map (fun j =>
    " " ++ j.jtype.toUpper ++ " JOIN " ++ j.Source ++ " AS " ++ j.Source ++ " ON "
      ++ j.Source ++ "." ++ j.Key ++ " = " ++ sql.getAliasBySource sql.parts.table ++ "." ++ j.TargetKey))

/-- One predicate term of buildWhere: the body of its loop over the predicate
map. int64 slices and string slices render as IN lists; everything else takes
the scalar path, with an equals sign injected only when the key contains none
of the comparison characters. -/
def postgres.whereTerm (sql : postgres) (key : String) (value : Value) : String :=
  match value with
  | .listInt64 sl =>
      sql.getAliasBySource sql.parts.table ++ "." ++ key ++ " IN (" ++ String.intercalate "," (sl.map intDecimal) ++ ")"
  | .listStr sl =>
      sql.getAliasBySource sql.parts.table ++ "." ++ key ++ " IN (" ++ String.intercalate "," (sl.map (fun st => "\x27" ++ st ++ "\x27")) ++ ")"
  | v =>
      sql.getAliasBySource sql.parts.table ++ "." ++ key
        ++ (if !(key.data.contains '=') && !(key.data.contains '>') && !(key.data.contains '<') then "=" else "")
        ++ toString v

/-- buildWhere of the source: nothing when the predicate map is empty, otherwise
the WHERE keyword and the terms joined with AND. -/
def postgres.buildWhere (sql : postgres) : String :=
  if sql.parts.whereMap = [] then ""
  else " WHERE " ++ String.intercalate " AND " (sql.parts.whereMap.map (fun kv => sql.whereTerm kv.1 kv.2))

/-- buildSetter of the source. Note the guard: it returns early when the
predicate map (parts.where) is empty, not when the payload is. -/
def postgres.buildSetter (sql : postgres) : String :=
  if sql.parts.whereMap = [] then ""
  else " SET " ++ String.intercalate ", " ((sql.parts.insertData.getD []).map (fun kv => kv.1 ++ " = " ++ toString kv.2))

/-- buildValues of the source. -/
def postgres.buildValues (sql : postgres) : String :=
  "(" ++ String.intercalate "," ((sql.parts.insertData.getD []).map Prod.fst) ++ ") VALUES ("
    ++ String.intercalate "," ((sql.parts.insertData.getD []).map (fun kv => toString kv.2)) ++ ")"

/-- buildLimit of the source: nothing when the limit is zero. -/
def postgres.buildLimit (sql : postgres) : String :=
  if sql.parts.limit ≠ 0 then " LIMIT " ++ intDecimal sql.parts.limit ++ " OFFSET " ++ intDecimal sql.parts.offset
  else ""

/-- buildOrderBy of the source. -/
def postgres.buildOrderBy (sql : postgres) : String :=
  if sql.parts.order = [] then ""
  else " ORDER BY " ++ String.intercalate "," (sql.parts.order.map (fun o =>
    (if !(o.OrderBy.data.contains '.') then sql.getAliasBySource sql.parts.table ++ "." ++ o.OrderBy else o.OrderBy)
      ++ (if o.Asc then " ASC" else "") ++ (if o.Desc then " DESC" else "")))

/-- buildUpdate of the source: keyword, aliased table, setter, predicate; no
limit clause. -/
def postgres.buildUpdate (sql : postgres) : String :=
  queryTypeUpdate ++ sql.buildTable true ++ sql.buildSetter ++ sql.buildWhere

/-- buildInsert of the source. -/
def postgres.buildInsert (sql : postgres) : String :=
  queryTypeInsert ++ " INTO " ++ sql.parts.table ++ sql.buildValues
    ++ (if sql.parts.returnID ≠ "" then " RETURNING " ++ sql.parts.returnID else "")

/-- buildDelete of the source. -/
def postgres.buildDelete (sql : postgres) : String :=
  queryTypeDelete ++ sql.buildFrom true ++ sql.buildWhere

/-- buildSelect of the source, with the builder state threaded through the
mutating buildFields call; the second component is the builder after that
mutation. -/
def postgres.buildSelect (sql : postgres) : String × postgres :=
  let fp := sql.buildFields
  (queryTypeSelect ++ fp.1 ++ fp.2.buildFrom true ++ fp.2.buildJoin ++ fp.2.buildWhere
    ++ fp.2.buildOrderBy ++ fp.2.buildLimit, fp.2)

/-- Build of the source. The Go receiver is a value, so the dispatch and the
renderers operate on a copy of the caller's builder; the mutation buildFields
performs stays inside this copy. -/
def postgres.Build (sql : postgres) : String :=
  if sql.queryType = queryTypeSelect then sql.buildSelect.1
  else if sql.queryType = queryTypeInsert then sql.buildInsert
  else if sql.queryType = queryTypeDelete then sql.buildDelete
  else if sql.queryType = queryTypeUpdate then sql.buildUpdate
  else ""

/-- A call site builder.Build(): Go passes the receiver by value, so next to the
returned SQL string the caller keeps its builder exactly as it was. -/
def postgres.BuildCall (sql : postgres) : String × postgres :=
  (sql.Build, sql)

/-- The fluent configuration calls that do not choose a statement kind. -/
inductive FluentOp where
  | fromTable : String → FluentOp
  | valuesData : Option (List (String × Value)) → FluentOp
  | setData : Option (List (String × Value)) → FluentOp
  | whereQ : List (String × Value) → FluentOp
  | joinSpec : Join → FluentOp
  | orderSpec : OrderParam → FluentOp
  | limitOffset : Int → Int → FluentOp
  | returnCol : String → FluentOp

/-- Apply one kind-free fluent call to a builder. -/
def applyOp (sql : postgres) : FluentOp → postgres
  | .fromTable t => sql.From t
  | .valuesData d => sql.Values d
  | .setData d => sql.Set d
  | .whereQ w => sql.Where w
  | .joinSpec j => sql.Join j
  | .orderSpec o => sql.Order o
  | .limitOffset l o => sql.Limit l o
  | .returnCol c => sql.ReturnID c

/-- The repository Update call site without its Where call, payload x to 1. -/
def sampleUpdateNoWhere : postgres :=
  (freshBuilder.Update "t").Set (some [("x", Value.int 1)])

/-- The repository Update call site with predicate id equal to 5. -/
def sampleUpdate : postgres :=
  ((freshBuilder.Update "t").Set (some [("x", Value.int 1)])).Where [("id", Value.int 5)]

/-- The select chain of the spec example. -/
def sampleSelect : postgres :=
  (((freshBuilder.Select ["id"]).From "users").Where [("id", Value.int 5)]).Limit 10 0

/-- A builder whose primary table users is registered under the default alias. -/
def sampleAliased : postgres :=
  freshBuilder.From "users"

/-- A select with an empty fields list, for the wildcard-default behaviour. -/
def sampleDefaultFields : postgres :=
  (freshBuilder.Select []).From "t"

/-- A builder with a two-entry scalar predicate map. -/
def sampleWhere : postgres :=
  (freshBuilder.From "t").Where [("a", Value.int 1), ("b", Value.str "x")]

/-- An INSERT statement configured with a non-empty predicate map. -/
def sampleInsertWhere : postgres :=
  ((freshBuilder.Insert "t").Values (some [("a", Value.int 1)])).Where [("b", Value.int 2)]


theorem applyOp_queryType (b : postgres) (op : FluentOp) : (applyOp b op).queryType = b.queryType := by
  cases op <;> rfl

theorem Build_eq_buildUpdate (b : postgres) (h : b.queryType = queryTypeUpdate) : b.Build = b.buildUpdate := by
  unfold postgres.Build
  rw [h, if_neg (by decide), if_neg (by decide), if_neg (by decide), if_pos rfl]

theorem natDecimalAux_length_le : ∀ (fuel n k : Nat), n < fuel → 1 ≤ k → n < 10 ^ k → (natDecimalAux fuel n).length ≤ k := by
  intro fuel
  induction fuel with
  | zero => intro n k h; omega
  | succ f ih =>
    intro n k hn hk hpow
    unfold natDecimalAux
    by_cases h10 : n < 10
    · rw [if_pos h10]; simpa using hk
    · rw [if_neg h10]
      obtain ⟨k', rfl⟩ : ∃ k', k = k' + 1 := ⟨k - 1, by omega⟩
      have hk' : 1 ≤ k' := by
        by_contra hc
        have hz : k' = 0 := by omega
        subst hz
        simp at hpow
        omega
      have hdiv : n / 10 < f := by
        have h1 : n / 10 < n := Nat.div_lt_self (by omega) (by omega)
        omega
      have hdp : n / 10 < 10 ^ k' := by
        rw [Nat.div_lt_iff_lt_mul (by omega)]
        calc n < 10 ^ (k' + 1) := hpow
        _ = 10 ^ k' * 10 := by rw [pow_succ]
      have hrec := ih (n / 10) k' hdiv hk' hdp
      rw [List.length_append]
      simp
      omega

theorem natDecimal_length_le (m : Nat) (h : m < 100000000) : (natDecimal m).length ≤ 8 := by
  have h2 : (natDecimal m).length = (natDecimalAux (m + 1) m).length := rfl
  rw [h2]
  exact natDecimalAux_length_le (m + 1) m 8 (by omega) (by omega) (by norm_num; omega)

theorem padZeros_length (s : String) (h : s.length ≤ 8) : (padZeros 8 s).length = 8 := by
  unfold padZeros
  rw [String.length_append]
  have h2 : (String.mk (List.replicate (8 - s.length) '0')).length = 8 - s.length := by
    show (List.replicate (8 - s.length) '0').length = 8 - s.length
    simp
  omega

/-- C1: the claim says the SET clause of an UPDATE depends only on the payload
mapping. The code contradicts it: buildSetter guards on the predicate map, so
with the payload x to 1 but no predicate the whole SET clause is dropped and
Build returns just UPDATE t as u, while with a non-empty predicate the clause
appears with one column equal formatted value term per payload entry. -/
theorem c1_set_clause_gated_on_where :
    sampleUpdateNoWhere.Build = "UPDATE t as u" ∧
    sampleUpdate.Build = "UPDATE t as u SET x = 1 WHERE u.id=5" :=
  ⟨rfl, rfl⟩

/-- C2: on a builder whose query type is UPDATE the rendered output is
independent of any Limit call: buildUpdate never reads limit or offset, so no
LIMIT clause can appear even for the repository caller's Limit 1 0. -/
theorem c2_update_build_ignores_limit (b : postgres) (l o : Int)
    (h : b.queryType = queryTypeUpdate) :
    (b.Limit l o).Build = b.Build := by
  rw [Build_eq_buildUpdate (b.Limit l o) h, Build_eq_buildUpdate b h]
  cases b with
  | mk qt ps src => cases ps; rfl

theorem c2_update_build_ignores_limit_witness :
    sampleUpdate.queryType = queryTypeUpdate ∧
    (sampleUpdate.Limit 1 0).Build = sampleUpdate.Build :=
  ⟨rfl, c2_update_build_ignores_limit sampleUpdate 1 0 rfl⟩

/-- C3 counterexample: the spec example chain does not produce the claimed
string, because buildFrom already ends in a space and buildTable starts with
one, so the output has two spaces between FROM and the table name. -/
theorem c3_select_exact_output_counterexample :
    sampleSelect.Build ≠ "SELECT u.id FROM users as u WHERE u.id=5 LIMIT 10 OFFSET 0" := by
  decide

/-- C3 amended: the chain produces exactly the claimed string except for a
double space after FROM, with the clauses in the order FROM, JOIN, WHERE,
ORDER BY, LIMIT and u the default alias. -/
theorem c3_select_exact_output_amended :
    sampleSelect.Build = "SELECT u.id FROM  users as u WHERE u.id=5 LIMIT 10 OFFSET 0" :=
  rfl

/-- C4: every scalar-valued predicate entry renders as the aliased key, then an
equals sign exactly when the key contains none of the comparison characters,
then the formatted value. -/
theorem c4_scalar_sign_injection (sql : postgres) (key : String) (v : Value)
    (hv : v.isScalar = true) :
    sql.whereTerm key v =
      sql.getAliasBySource sql.parts.table ++ "." ++ key
        ++ (if !(key.data.contains '=') && !(key.data.contains '>') && !(key.data.contains '<') then "=" else "")
        ++ toString v := by
  cases v with
  | str s => rfl
  | int64 n => rfl
  | int n => rfl
  | float q => rfl
  | bool b => rfl
  | listInt64 l => simp [Value.isScalar] at hv
  | listInt l => rfl
  | listFloat l => rfl
  | listStr l => simp [Value.isScalar] at hv

theorem c4_scalar_sign_injection_witness :
    (Value.int 5).isScalar = true ∧ sampleAliased.whereTerm "id" (Value.int 5) = "u.id=5" ∧
    (Value.int 30).isScalar = true ∧ sampleAliased.whereTerm "age>" (Value.int 30) = "u.age>30" :=
  ⟨by decide,
   (c4_scalar_sign_injection sampleAliased "id" (Value.int 5) (by decide)).trans (by decide),
   by decide,
   (c4_scalar_sign_injection sampleAliased "age>" (Value.int 30) (by decide)).trans (by decide)⟩

/-- C5: an int64 sequence or string sequence predicate value renders as an IN
list whose members keep the cardinality and order of the input sequence, string
members single-quoted and integer members bare decimal. -/
theorem c5_in_list_rendering (sql : postgres) (key : String) (xs : List Int) (ys : List String) :
    sql.whereTerm key (Value.listInt64 xs)
      = sql.getAliasBySource sql.parts.table ++ "." ++ key ++ " IN ("
          ++ String.intercalate "," (xs.map intDecimal) ++ ")" ∧
    sql.whereTerm key (Value.listStr ys)
      = sql.getAliasBySource sql.parts.table ++ "." ++ key ++ " IN ("
          ++ String.intercalate "," (ys.map (fun st => "\x27" ++ st ++ "\x27")) ++ ")" ∧
    (xs.map intDecimal).length = xs.length ∧
    (ys.map (fun st => "\x27" ++ st ++ "\x27")).length = ys.length :=
  ⟨rfl, rfl, by simp, by simp⟩

/-- C6: whatever sequence of kind-free fluent calls is applied to a fresh
builder, Build returns the empty string because no query type was ever set; the
rendering is a total function, so no fault is possible. -/
theorem c6_build_without_kind_is_empty (ops : List FluentOp) :
    (ops.foldl applyOp freshBuilder).Build = "" := by
  have hq : ∀ (l : List FluentOp) (b : postgres), b.queryType = "" → (l.foldl applyOp b).queryType = "" := by
    intro l
    induction l with
    | nil => intro b hb; exact hb
    | cons op t ih =>
      intro b hb
      exact ih (applyOp b op) ((applyOp_queryType b op).trans hb)
  have h := hq ops freshBuilder rfl
  unfold postgres.Build
  rw [h, if_neg (by decide), if_neg (by decide), if_neg (by decide), if_neg (by decide)]

theorem buildFields_buildWhere (sql : postgres) : sql.buildFields.2.buildWhere = sql.buildWhere := by
  dsimp only [postgres.buildFields]
  split <;> rfl

/-- C7 counterexample: the claim quantifies over every rendered statement, but
an INSERT configured with a non-empty predicate map renders no WHERE clause at
all: the output does not even contain the letter W. -/
theorem c7_where_clause_counterexample :
    sampleInsertWhere.parts.whereMap ≠ [] ∧
    sampleInsertWhere.Build = "INSERT INTO t(a) VALUES (1)" ∧
    sampleInsertWhere.Build.data.contains 'W' = false :=
  ⟨by decide, rfl, by decide⟩

/-- C7 amended: for the statement kinds whose renderers include the predicate
clause — SELECT, UPDATE and DELETE, whose outputs all factor through buildWhere
as shown by the last four conjuncts — the clause is empty exactly when the
predicate map is, otherwise it is the WHERE keyword followed by exactly one
term per map entry joined with AND, the term count equal to the map size
(INSERT never renders the clause, whatever the predicate map holds). -/
theorem c7_where_clause_structure_amended (sql : postgres) :
    ((sql.buildWhere = "") ↔ sql.parts.whereMap = []) ∧
    sql.buildWhere = (if sql.parts.whereMap = [] then ""
      else " WHERE " ++ String.intercalate " AND " (sql.parts.whereMap.map (fun kv => sql.whereTerm kv.1 kv.2))) ∧
    (sql.parts.whereMap.map (fun kv => sql.whereTerm kv.1 kv.2)).length = sql.parts.whereMap.length ∧
    sql.buildUpdate = queryTypeUpdate ++ sql.buildTable true ++ sql.buildSetter ++ sql.buildWhere ∧
    sql.buildDelete = queryTypeDelete ++ sql.buildFrom true ++ sql.buildWhere ∧
    sql.buildSelect.1 = queryTypeSelect ++ sql.buildFields.1 ++ sql.buildFields.2.buildFrom true
        ++ sql.buildFields.2.buildJoin ++ sql.buildFields.2.buildWhere
        ++ sql.buildFields.2.buildOrderBy ++ sql.buildFields.2.buildLimit ∧
    sql.buildFields.2.buildWhere = sql.buildWhere := by
  refine ⟨?_, rfl, by simp, rfl, rfl, rfl, buildFields_buildWhere sql⟩
  constructor
  · intro h0
    by_contra hne
    unfold postgres.buildWhere at h0
    rw [if_neg hne] at h0
    have hlen := congrArg String.length h0
    rw [String.length_append] at hlen
    have h7 : (" WHERE ").length = 7 := rfl
    have h0' : ("" : String).length = 0 := rfl
    omega
  · intro he
    unfold postgres.buildWhere
    rw [if_pos he]

/-- C8: the shared formatter renders float64 values in fixed-point with exactly
eight fractional digits, int64 and int values as plain decimal digits, and
every other value, strings included, single-quoted around its generic text;
concrete instances pin the eight-decimal output. -/
theorem c8_shared_value_formatter :
    (∀ (q : ℚ), toString (Value.float q) = formatFloat8 q ∧
      ∃ p f, formatFloat8 q = p ++ "." ++ f ∧ f.length = 8) ∧
    (∀ (n : Int), toString (Value.int64 n) = intDecimal n) ∧
    (∀ (n : Int), toString (Value.int n) = intDecimal n) ∧
    (∀ (s : String), toString (Value.str s) = "\x27" ++ s ++ "\x27") ∧
    (∀ (b : Bool), toString (Value.bool b) = "\x27" ++ goRepr (Value.bool b) ++ "\x27") ∧
    (∀ (xs : List ℚ), toString (Value.listFloat xs) = "\x27" ++ goRepr (Value.listFloat xs) ++ "\x27") ∧
    formatFloat8 (mkRat 3 2) = "1.50000000" ∧ formatFloat8 (mkRat (-1) 4) = "-0.25000000" := by
  refine ⟨fun q => ⟨rfl, ?_⟩, fun n => rfl, fun n => rfl, fun s => rfl, fun b => rfl, fun xs => rfl, by decide, by decide⟩
  refine ⟨(if q.num < 0 then "-" else "")
      ++ natDecimal ((roundHalfEven (mkRat ((ratAbs q).num * 100000000) (ratAbs q).den)).toNat / 100000000),
    padZeros 8 (natDecimal ((roundHalfEven (mkRat ((ratAbs q).num * 100000000) (ratAbs q).den)).toNat % 100000000)),
    rfl, ?_⟩
  exact padZeros_length _ (natDecimal_length_le _ (Nat.mod_lt _ (by norm_num)))

/-- C9: a float sequence (or other unrecognised sequence such as an int
sequence) predicate value is not rendered as an IN list: buildWhere falls to the
scalar path, injecting an equals sign for a sign-free key and quoting the
generic bracketed text of the whole sequence, even though the never-invoked
helper formatValue would have rendered the same float sequence as an IN list. -/
theorem c9_float_list_scalar_path (sql : postgres) (key : String) (xs : List ℚ) (ys : List Int)
    (h1 : key.data.contains '=' = false) (h2 : key.data.contains '>' = false) (h3 : key.data.contains '<' = false) :
    sql.whereTerm key (Value.listFloat xs)
      = sql.getAliasBySource sql.parts.table ++ "." ++ key ++ "=" ++ toString (Value.listFloat xs) ∧
    toString (Value.listFloat xs) = "\x27" ++ goRepr (Value.listFloat xs) ++ "\x27" ∧
    goRepr (Value.listFloat xs) = "[" ++ String.intercalate " " (xs.map goFloatRepr) ++ "]" ∧
    sql.whereTerm key (Value.listInt ys)
      = sql.getAliasBySource sql.parts.table ++ "." ++ key ++ "=" ++ toString (Value.listInt ys) ∧
    formatValue (Value.listFloat xs) = " IN (" ++ String.intercalate "," (xs.map goFloatRepr) ++ ")" := by
  have m1 : '=' ∉ key.data := by simpa using h1
  have m2 : '>' ∉ key.data := by simpa using h2
  have m3 : '<' ∉ key.data := by simpa using h3
  refine ⟨?_, rfl, rfl, ?_, rfl⟩ <;> simp [postgres.whereTerm, m1, m2, m3]

theorem c9_float_list_scalar_path_witness :
    ("score".data.contains '=' = false) ∧ ("score".data.contains '>' = false) ∧ ("score".data.contains '<' = false) ∧
    sampleAliased.whereTerm "score" (Value.listFloat [mkRat 3 2, mkRat 5 2]) = "u.score=\x27[1.5 2.5]\x27" :=
  ⟨by decide, by decide, by decide, by
    have h := c9_float_list_scalar_path sampleAliased "score" [mkRat 3 2, mkRat 5 2] [] (by decide) (by decide) (by decide)
    exact h.1.trans (by decide)⟩

/-- C10: a Build call leaves the caller's builder untouched, because the Go
receiver is a value: the call returns the string next to the unchanged builder.
The wildcard default that buildFields writes into the fields of the rendering
copy (second and third conjunct) never escapes to the caller. -/
theorem c10_build_leaves_builder_unchanged :
    (∀ (b : postgres), b.BuildCall.2 = b) ∧
    sampleDefaultFields.buildSelect.2.parts.fields = ["*"] ∧
    sampleDefaultFields.BuildCall.2.parts.fields = [] :=
  ⟨fun _ => rfl, rfl, rfl⟩

end builders
